import Mathlib

/-!
Shallow embedding of the lxplug-updater panel plugin
(src/plugins/updater/updater.c) and the parts of its behaviour the
verification below is about.

Modelling conventions:
- The environment probes (net_available, clock_synced, the piwiz wizard
  probe, the raspi-config is_pi probe) are shell commands in the source;
  they enter the model as boolean parameters.
- The PackageKit backend is modelled by the error/result data it hands to
  the asynchronous callbacks refresh_cache_done and check_updates_done.
- Side effects (message boxes, g_spawn_async, lxpanel_notify, backend
  calls, g_thread_new) are recorded as data in the result of each modelled
  function, so theorems can count them.
- Machine integers in the source (int n_updates, guint timer) never
  overflow in the behaviours considered, so they are modelled as Nat.
-/

namespace LxplugUpdater

/-- A pending update as reported by the PackageKit backend: the package id
string (name;version;arch;data) and the architecture string returned by
pk_package_get_arch. -/
structure Pkg where
  id : String
  arch : String
  deriving DecidableEq, Repr

/-- Scan the haystack character list the way C strstr does: succeed when
the needle is a prefix of some suffix of the haystack. -/
def strstr_chars (needle : List Char) : List Char → Bool
  | [] => needle.isEmpty
  | c :: t => needle.isPrefixOf (c :: t) || strstr_chars needle t

/-- C strstr non-null test: the needle occurs as a substring of the
haystack. Models strstr (hay, needle) returning non-NULL. -/
def strstr_contains (hay needle : String) : Bool :=
  strstr_chars needle.data hay.data

/-- filter_fn from updater.c lines 171-175: drop a package whose
architecture string contains "amd64", keep every other package. -/
def filter_fn (package : Pkg) : Bool :=
  if strstr_contains package.arch "amd64" then false else true

/-- The platform-dependent filtering step of check_updates_done lines
193-201: the shell probe raspi-config nonint is_pi exits 0 on a Pi, so the
C condition if (system (...)) is taken exactly when the platform is NOT a
Pi, and only then is pk_package_sack_filter applied with filter_fn. -/
def platform_filter (is_pi : Bool) (results : List Pkg) : List Pkg :=
  if is_pi then results else results.filter filter_fn

/-- The published update state inside UpdaterPlugin: n_updates and the ids
string vector, which is NULL (none) exactly in the no-updates case. -/
structure PluginState where
  n_updates : Nat
  ids : Option (List String)
  deriving DecidableEq, Repr

/-- check_updates_done from updater.c lines 177-220. Inputs: the is_pi
probe result, the GError from pk_task_generic_finish, the update list in
the PkResults, and the current plugin state. Output: the new plugin state
and the number of lxpanel_notify calls made (0 or 1). On error the
callback returns at once and the state is untouched. -/
def check_updates_done (is_pi : Bool) (err : Option String)
    (results : List Pkg) (up : PluginState) : PluginState × Nat :=
  match err with
  | some _ => (up, 0)
  | none =>
    let fsack := platform_filter is_pi results
    if fsack.length > 0 then
      ({ n_updates := fsack.length, ids := some (fsack.map Pkg.id) }, 1)
    else
      ({ n_updates := fsack.length, ids := none }, 0)

/-- refresh_cache_done from updater.c lines 155-169, reduced to its control
flow: true means the callback goes on to call pk_client_get_updates_async,
false means the GError branch returned early. -/
def refresh_cache_done (err : Option String) : Bool :=
  match err with
  | some _ => false
  | none => true

/-- The backend operations invoked during one check, in order. -/
inductive BackendOp
  | refreshCache
  | getUpdates
  deriving DecidableEq, Repr

/-- One scenario for a whole check run: the net_available probe result,
the is_pi probe result, the error outcomes of the two asynchronous backend
calls, and the update list the backend reports when asked. -/
structure Env where
  net : Bool
  is_pi : Bool
  refreshErr : Option String
  updatesErr : Option String
  updates : List Pkg
  deriving Repr

/-- The observable outcome of one invocation of the check pipeline. -/
structure CheckRun where
  state : PluginState
  ops : List BackendOp
  notices : Nat
  deriving DecidableEq, Repr

/-- One full pass of the asynchronous check pipeline of updater.c:
check_for_updates (lines 134-146) guards on net_available and otherwise
starts refresh_update_cache, whose pk_client_refresh_cache_async completes
in refresh_cache_done (lines 155-169), which on success issues
pk_client_get_updates_async completing in check_updates_done (lines
177-220). The chain is linear, so composing the per-callback models in
order is faithful to the source. -/
def run_check (env : Env) (up : PluginState) : CheckRun :=
  if env.net = true then
    if refresh_cache_done env.refreshErr = true then
      let r := check_updates_done env.is_pi env.updatesErr env.updates up
      { state := r.1, ops := [BackendOp.refreshCache, BackendOp.getUpdates],
        notices := r.2 }
    else
      { state := up, ops := [BackendOp.refreshCache], notices := 0 }
  else
    { state := up, ops := [], notices := 0 }

/-- Ghost scheduling state used to reason about concurrent pipeline runs:
activeRuns counts threads started by g_thread_new whose callback chain has
not finished, runsStarted counts all g_thread_new calls so far. -/
structure SchedState where
  activeRuns : Nat
  runsStarted : Nat
  deriving DecidableEq, Repr

/-- check_for_updates from updater.c lines 134-146, instrumented with the
ghost run counters: the body reads only the net_available probe; when the
probe succeeds it unconditionally calls g_thread_new (refresh_update_cache),
and nothing in the function consults any in-flight state. -/
def check_for_updates (net : Bool) (s : SchedState) : SchedState :=
  if net then
    { activeRuns := s.activeRuns + 1, runsStarted := s.runsStarted + 1 }
  else
    s

/-- Completion of one pipeline run, for the ghost counters. -/
def run_finished (s : SchedState) : SchedState :=
  { s with activeRuns := s.activeRuns - 1 }

/-- The user-facing failure messages shown by install_updates via
message (..., -3). -/
inductive UiMsg
  | noNetwork
  | clockNotSynced
  deriving DecidableEq, Repr

/-- Observable effect of an install request: which failure messages were
shown and how many privileged subprocesses were spawned by g_spawn_async. -/
structure SpawnEffect where
  messages : List UiMsg
  spawns : Nat
  deriving DecidableEq, Repr

/-- launch_installer from updater.c lines 244-251: one g_spawn_async call
of sudo lxplug-updater-install, no user-facing message. -/
def launch_installer : SpawnEffect :=
  { messages := [], spawns := 1 }

/-- install_updates from updater.c lines 227-242, over the results of the
net_available and clock_synced probes. -/
def install_updates (net clock : Bool) : SpawnEffect :=
  if net = false then
    { messages := [UiMsg.noNetwork], spawns := 0 }
  else if clock = false then
    { messages := [UiMsg.clockNotSynced], spawns := 0 }
  else
    launch_installer

/-- handle_close_and_install from updater.c lines 300-309: destroy the
update dialog if open, then launch the installer only when both probes
succeed, with no message in any case. First component: whether the dialog
is open afterwards. -/
def handle_close_and_install (net clock : Bool) (_dlgOpen : Bool) :
    Bool × SpawnEffect :=
  (false,
   if net && clock then launch_installer
   else { messages := [], spawns := 0 })

/-- The callbacks handed to g_timeout_add_seconds in updater.c:
periodic_check for the interval timer, net_check for the 60-second
network poll. -/
inductive TimerCb
  | periodicCheck
  | netCheckCb
  deriving DecidableEq, Repr

/-- One armed glib timeout source: its source id, its period in seconds,
the absolute time of its next firing, and its callback. -/
structure TimerSource where
  id : Nat
  secs : Nat
  nextFire : Nat
  cb : TimerCb
  deriving DecidableEq, Repr

/-- The glib main context as far as timeout sources are concerned: the
current time, the next source id to hand out, and the armed sources. -/
structure GMainCtx where
  now : Nat
  nextId : Nat
  sources : List TimerSource
  deriving DecidableEq, Repr

/-- g_timeout_add_seconds: arm a new source firing secs from now, and
return its fresh id. -/
def g_timeout_add_seconds (secs : Nat) (cb : TimerCb) (ctx : GMainCtx) :
    Nat × GMainCtx :=
  (ctx.nextId,
   { ctx with
     nextId := ctx.nextId + 1,
     sources := ctx.sources ++
       [{ id := ctx.nextId, secs := secs, nextFire := ctx.now + secs,
          cb := cb }] })

/-- g_source_remove: drop the source with the given id. -/
def g_source_remove (i : Nat) (ctx : GMainCtx) : GMainCtx :=
  { ctx with sources := ctx.sources.filter (fun s => s.id ≠ i) }

/-- SECS_PER_HOUR from updater.c line 50. -/
def SECS_PER_HOUR : Nat := 3600

/-- The armed sources whose callback is periodic_check. -/
def periodic_sources (ctx : GMainCtx) : List TimerSource :=
  ctx.sources.filter (fun s => s.cb = TimerCb.periodicCheck)

/-- updater_apply_configuration from updater.c lines 562-571, acting on
the plugin fields interval and timer and on the main context: remove the
old timer source if one is registered, then arm a fresh periodic_check
source for interval hours if interval is nonzero, else record no timer.
Returns the new value of up.timer and the new context. -/
def updater_apply_configuration (interval timer : Nat) (ctx : GMainCtx) :
    Nat × GMainCtx :=
  let ctx1 := if timer ≠ 0 then g_source_remove timer ctx else ctx
  if interval ≠ 0 then
    g_timeout_add_seconds (interval * SECS_PER_HOUR) TimerCb.periodicCheck ctx1
  else
    (0, ctx1)

/-- The 60-second network poll period used by init_check (updater.c line
429: g_timeout_add_seconds (60, net_check, up)). -/
def NET_POLL_SECONDS : Nat := 60

/-- First poll index at or after k at which the network probe succeeds,
searching at most fuel polls; poll j happens NET_POLL_SECONDS * j seconds
after startup. Models the net_check source (updater.c lines 434-444),
which keeps returning TRUE (stay armed) while the probe fails and returns
FALSE (disarm) once it has run the check. -/
def first_net_poll (netAt : Nat → Bool) : Nat → Nat → Option Nat
  | 0, _ => none
  | fuel + 1, k => if netAt k then some k else first_net_poll netAt fuel (k + 1)

/-- Outcome of the startup logic. -/
inductive InitOutcome
  | skippedWizard
  | checkedAt (k : Nat)
  | stillPolling
  deriving DecidableEq, Repr

/-- init_check from updater.c lines 417-432 together with the net_check
polling it arms: if the piwiz wizard process is running (the shell probe
at line 423 exits 0), return without any check or poll; otherwise run the
check at once when the network probe succeeds at poll 0, else poll every
NET_POLL_SECONDS seconds and run the check at the first poll where the
probe succeeds. fuel bounds how many polls the model observes. -/
def init_check_model (wizard : Bool) (netAt : Nat → Bool) (fuel : Nat) :
    InitOutcome :=
  if wizard then
    InitOutcome.skippedWizard
  else if netAt 0 then
    InitOutcome.checkedAt 0
  else
    match first_net_poll netAt fuel 1 with
    | some k => InitOutcome.checkedAt k
    | none => InitOutcome.stillPolling

/-! Helper lemmas shared by the claim theorems. -/

theorem run_check_no_net_eq (env : Env) (up : PluginState)
    (h : env.net = false) :
    run_check env up = { state := up, ops := [], notices := 0 } := by
  unfold run_check
  rw [h]
  simp

theorem run_check_ok_eq (env : Env) (up : PluginState)
    (hnet : env.net = true) (hre : env.refreshErr = none) :
    run_check env up =
      { state := (check_updates_done env.is_pi env.updatesErr env.updates up).1,
        ops := [BackendOp.refreshCache, BackendOp.getUpdates],
        notices := (check_updates_done env.is_pi env.updatesErr env.updates up).2 } := by
  unfold run_check
  rw [hnet, hre]
  rfl

theorem check_updates_done_none_eq (is_pi : Bool) (results : List Pkg)
    (up : PluginState) :
    check_updates_done is_pi none results up =
      (if (platform_filter is_pi results).length > 0 then
        ({ n_updates := (platform_filter is_pi results).length,
           ids := some ((platform_filter is_pi results).map Pkg.id) }, 1)
      else
        ({ n_updates := (platform_filter is_pi results).length, ids := none }, 0)) :=
  rfl

/-! Concrete scenarios reused by witnesses and counterexamples. -/

/-- A previously published state with pending updates. -/
def up_prev : PluginState := { n_updates := 3, ids := some ["x;1;armhf"] }

/-- A successful check scenario on a Pi that reports one armhf update. -/
def env_repeat : Env :=
  { net := true, is_pi := true, refreshErr := none, updatesErr := none,
    updates := [{ id := "bar;3.0;armhf", arch := "armhf" }] }

/-- A scenario with no network. -/
def env_no_net : Env :=
  { net := false, is_pi := false, refreshErr := none, updatesErr := none,
    updates := [{ id := "foo;1.2;amd64", arch := "amd64" }] }

/-- A successful non-Pi scenario whose only reported update is amd64, so
the filtered list is empty. -/
def env_zero : Env :=
  { net := true, is_pi := false, refreshErr := none, updatesErr := none,
    updates := [{ id := "foo;1.2;amd64", arch := "amd64" }] }

/-- A scenario in which the cache refresh fails. -/
def env_refresh_err : Env :=
  { net := true, is_pi := true, refreshErr := some "refresh failed",
    updatesErr := none, updates := [] }

/-- A scenario in which the update query fails. -/
def env_updates_err : Env :=
  { net := true, is_pi := true, refreshErr := none,
    updatesErr := some "query failed", updates := [] }

/-! Claim theorems. -/

/-- C1: install_updates with the network probe false shows the no-network
failure message and spawns no subprocess; with network available but the
clock-sync probe false it shows the clock-not-synchronised message and
spawns no subprocess; with both probes true it spawns exactly one
privileged installer subprocess and shows no failure message. -/
theorem install_updates_gates : ∀ net clock : Bool,
    (net = false →
      install_updates net clock = { messages := [UiMsg.noNetwork], spawns := 0 }) ∧
    (net = true → clock = false →
      install_updates net clock =
        { messages := [UiMsg.clockNotSynced], spawns := 0 }) ∧
    (net = true → clock = true →
      (install_updates net clock).spawns = 1 ∧
      (install_updates net clock).messages = []) := by
  decide

theorem install_updates_gates_witness :
    install_updates false true = { messages := [UiMsg.noNetwork], spawns := 0 } ∧
    install_updates true false =
      { messages := [UiMsg.clockNotSynced], spawns := 0 } ∧
    (install_updates true true).spawns = 1 :=
  ⟨(install_updates_gates false true).1 rfl,
   (install_updates_gates true false).2.1 rfl rfl,
   ((install_updates_gates true true).2.2 rfl rfl).1⟩

/-- C2 counterexample: from the idle scheduler state, a first call to
check_for_updates with the network up leaves one pipeline run in flight,
and a second call made while that run is in flight starts a second
concurrent run (two threads started) instead of being ignored. -/
theorem check_for_updates_second_run :
    (check_for_updates true { activeRuns := 0, runsStarted := 0 }).activeRuns = 1 ∧
    (check_for_updates true
      (check_for_updates true { activeRuns := 0, runsStarted := 0 })).runsStarted = 2 ∧
    (check_for_updates true
      (check_for_updates true { activeRuns := 0, runsStarted := 0 })).activeRuns = 2 := by
  decide

/-- C2 amended: check_for_updates has no single-flight guard: whenever the
network probe succeeds, the call starts a fresh pipeline run by
g_thread_new regardless of how many runs are already in flight, and no
already-running signal exists in the function. -/
theorem check_for_updates_no_single_flight :
    ∀ s : SchedState,
      check_for_updates true s =
        { activeRuns := s.activeRuns + 1, runsStarted := s.runsStarted + 1 } := by
  intro s
  rfl

/-- C3 counterexample: with the previously published state already showing
one pending update, a further successful check that still finds one
pending update emits a notification again, contradicting the claim that a
repeated has-updates check emits none. -/
theorem notify_repeat_counterexample :
    up_prev.n_updates > 0 ∧
    (run_check env_repeat up_prev).state.n_updates > 0 ∧
    (run_check env_repeat up_prev).notices = 1 := by
  decide

/-- C3 amended: the updates-available notification is emitted on every
completed successful check whose filtered update list is non-empty, once
per such check and independently of the previously published state; a
completed check whose filtered list is empty emits none. -/
theorem notify_every_check_with_updates :
    ∀ (env : Env) (up : PluginState),
      env.net = true → env.refreshErr = none → env.updatesErr = none →
      (run_check env up).notices =
        (if (platform_filter env.is_pi env.updates).length > 0 then 1 else 0) := by
  intro env up hnet hre hue
  rw [run_check_ok_eq env up hnet hre, hue, check_updates_done_none_eq]
  by_cases h : (platform_filter env.is_pi env.updates).length > 0
  · simp [h]
  · simp [h]

theorem notify_every_check_witness :
    (run_check env_repeat up_prev).notices =
      (if (platform_filter env_repeat.is_pi env_repeat.updates).length > 0
       then 1 else 0) :=
  notify_every_check_with_updates env_repeat up_prev rfl rfl rfl

/-- C4: when the network probe fails, the check performs no backend
operation at all and leaves the published state unchanged. -/
theorem run_check_no_net :
    ∀ (env : Env) (up : PluginState), env.net = false →
      (run_check env up).state = up ∧ (run_check env up).ops = [] := by
  intro env up h
  rw [run_check_no_net_eq env up h]
  exact ⟨rfl, rfl⟩

theorem run_check_no_net_witness :
    (run_check env_no_net up_prev).state = up_prev ∧
    (run_check env_no_net up_prev).ops = [] :=
  run_check_no_net env_no_net up_prev rfl

/-- C5: a completed successful check whose filtered update list is empty
publishes the up-to-date state, n_updates zero and ids cleared to NULL,
whatever the previous state was. -/
theorem run_check_zero_updates :
    ∀ (env : Env) (up : PluginState),
      env.net = true → env.refreshErr = none → env.updatesErr = none →
      platform_filter env.is_pi env.updates = [] →
      (run_check env up).state = { n_updates := 0, ids := none } := by
  intro env up hnet hre hue hz
  rw [run_check_ok_eq env up hnet hre, hue, check_updates_done_none_eq, hz]
  rfl

theorem run_check_zero_updates_witness :
    (run_check env_zero up_prev).state = { n_updates := 0, ids := none } :=
  run_check_zero_updates env_zero up_prev rfl rfl rfl (by decide)

/-- C6: on a Pi platform the filter stage excludes nothing; on a non-Pi
platform it retains exactly the packages whose architecture string does
not contain "amd64"; and on the concrete two-package example from the
spec the non-Pi result contains only the armhf package. -/
theorem platform_filter_spec :
    (∀ results : List Pkg, platform_filter true results = results) ∧
    (∀ (results : List Pkg) (p : Pkg),
      p ∈ platform_filter false results ↔
        p ∈ results ∧ strstr_contains p.arch "amd64" = false) ∧
    platform_filter false
        [{ id := "foo;1.2;amd64", arch := "amd64" },
         { id := "bar;3.0;armhf", arch := "armhf" }] =
      [{ id := "bar;3.0;armhf", arch := "armhf" }] := by
  refine ⟨fun results => rfl, fun results p => ?_, by decide⟩
  unfold platform_filter
  rw [if_neg (by simp)]
  rw [List.mem_filter]
  unfold filter_fn
  cases h : strstr_contains p.arch "amd64" <;> simp [h]

/-- C8: a check run in which a backend operation reports an error ends
without touching the previously published state. -/
theorem run_check_backend_error :
    ∀ (env : Env) (up : PluginState),
      env.refreshErr ≠ none ∨ env.updatesErr ≠ none →
      (run_check env up).state = up := by
  intro env up h
  by_cases hnet : env.net = true
  · cases hre : env.refreshErr with
    | some e =>
      unfold run_check
      rw [hnet, hre]
      rfl
    | none =>
      cases hue : env.updatesErr with
      | some e =>
        rw [run_check_ok_eq env up hnet hre, hue]
        rfl
      | none =>
        exfalso
        rcases h with h | h
        · exact h hre
        · exact h hue
  · rw [run_check_no_net_eq env up (by revert hnet; cases env.net <;> simp)]

theorem run_check_backend_error_witness :
    (run_check env_refresh_err up_prev).state = up_prev ∧
    (run_check env_updates_err up_prev).state = up_prev :=
  ⟨run_check_backend_error env_refresh_err up_prev (Or.inl (by simp [env_refresh_err])),
   run_check_backend_error env_updates_err up_prev (Or.inr (by simp [env_updates_err]))⟩

/-- C10: when installation is requested through the update-list dialog
install button and either probe fails, nothing happens silently: the
dialog is closed, no subprocess is spawned and, unlike install_updates,
no failure message is shown. -/
theorem handle_close_and_install_silent :
    ∀ net clock dlg : Bool, net = false ∨ clock = false →
      (handle_close_and_install net clock dlg).2.spawns = 0 ∧
      (handle_close_and_install net clock dlg).2.messages = [] ∧
      (handle_close_and_install net clock dlg).1 = false := by
  decide

theorem handle_close_and_install_silent_witness :
    (handle_close_and_install false true true).2.spawns = 0 ∧
    (handle_close_and_install false true true).2.messages = [] ∧
    (handle_close_and_install false true true).1 = false :=
  handle_close_and_install_silent false true true (Or.inl rfl)

theorem periodic_sources_add (secs : Nat) (ctx : GMainCtx) :
    periodic_sources (g_timeout_add_seconds secs TimerCb.periodicCheck ctx).2 =
      periodic_sources ctx ++
        [{ id := ctx.nextId, secs := secs, nextFire := ctx.now + secs,
           cb := TimerCb.periodicCheck }] := by
  unfold periodic_sources g_timeout_add_seconds
  simp [List.filter_append]

theorem periodic_sources_remove (timer : Nat) (ctx : GMainCtx)
    (h : ∀ s, s ∈ ctx.sources → s.cb = TimerCb.periodicCheck → s.id = timer) :
    periodic_sources (g_source_remove timer ctx) = [] := by
  unfold periodic_sources g_source_remove
  rw [List.filter_eq_nil_iff]
  intro s hs
  rw [List.mem_filter] at hs
  obtain ⟨hs1, hs2⟩ := hs
  simp only [decide_eq_true_eq] at hs2 ⊢
  intro hcb
  exact hs2 (h s hs1 hcb)

theorem periodic_sources_nil_of_zero (ctx : GMainCtx)
    (h : ∀ s, s ∈ ctx.sources → s.cb = TimerCb.periodicCheck →
      s.id = 0 ∧ 0 < (0 : Nat)) :
    periodic_sources ctx = [] := by
  unfold periodic_sources
  rw [List.filter_eq_nil_iff]
  intro s hs
  simp only [decide_eq_true_eq]
  intro hcb
  exact absurd (h s hs hcb).2 (by omega)

theorem mem_sources_remove (timer : Nat) (ctx : GMainCtx) (s : TimerSource)
    (hs : s ∈ (g_source_remove timer ctx).sources) : s.id ≠ timer := by
  unfold g_source_remove at hs
  rw [List.mem_filter] at hs
  simpa using hs.2

/-- C7: applying a configuration with the plugin timer field registered
(and source ids well formed: every armed periodic_check source is the
registered one, and the registered id was allocated in the past): the old
periodic timer source is removed; when the new interval is nonzero exactly
one periodic_check source is armed afterwards and it fires interval hours
after the reconfiguration moment ctx.now, independent of the old source
arm time; when the new interval is zero no periodic_check source remains
and the timer field is cleared. -/
theorem apply_configuration_reschedules :
    ∀ (interval timer : Nat) (ctx : GMainCtx),
      timer < ctx.nextId →
      (∀ s, s ∈ ctx.sources → s.cb = TimerCb.periodicCheck →
        s.id = timer ∧ 0 < timer) →
      (interval = 0 →
        (updater_apply_configuration interval timer ctx).1 = 0 ∧
        periodic_sources (updater_apply_configuration interval timer ctx).2 = []) ∧
      (interval ≠ 0 →
        (updater_apply_configuration interval timer ctx).1 = ctx.nextId ∧
        periodic_sources (updater_apply_configuration interval timer ctx).2 =
          [{ id := ctx.nextId, secs := interval * SECS_PER_HOUR,
             nextFire := ctx.now + interval * SECS_PER_HOUR,
             cb := TimerCb.periodicCheck }]) ∧
      (∀ s, s ∈ (updater_apply_configuration interval timer ctx).2.sources →
        s.id = timer → timer = 0) := by
  intro interval timer ctx hid hreg
  by_cases ht : timer = 0
  · subst ht
    have hstale : periodic_sources ctx = [] := periodic_sources_nil_of_zero ctx hreg
    by_cases hi : interval = 0
    · subst hi
      refine ⟨fun _ => ?_, fun h => absurd rfl h, fun s _ _ => rfl⟩
      unfold updater_apply_configuration
      simpa using hstale
    · refine ⟨fun h => absurd h hi, fun _ => ?_, fun s _ _ => rfl⟩
      unfold updater_apply_configuration
      rw [if_pos hi, if_neg (show ¬(0 : Nat) ≠ 0 by simp)]
      constructor
      · rfl
      · rw [periodic_sources_add, hstale]
        rfl
  · have hrem : periodic_sources (g_source_remove timer ctx) = [] :=
      periodic_sources_remove timer ctx (fun s hs hcb => (hreg s hs hcb).1)
    by_cases hi : interval = 0
    · subst hi
      refine ⟨fun _ => ?_, fun h => absurd rfl h, fun s hs hsid => ?_⟩
      · unfold updater_apply_configuration
        rw [if_pos ht]
        exact ⟨rfl, hrem⟩
      · exfalso
        revert hs
        unfold updater_apply_configuration
        rw [if_pos ht]
        intro hs
        exact mem_sources_remove timer ctx s hs hsid
    · refine ⟨fun h => absurd h hi, fun _ => ?_, fun s hs hsid => ?_⟩
      · unfold updater_apply_configuration
        rw [if_pos ht, if_pos hi]
        constructor
        · rfl
        · rw [periodic_sources_add, hrem]
          rfl
      · exfalso
        revert hs
        unfold updater_apply_configuration
        rw [if_pos ht, if_pos hi]
        unfold g_timeout_add_seconds
        intro hs
        simp only [List.mem_append, List.mem_singleton] at hs
        rcases hs with hs | hs
        · exact mem_sources_remove timer ctx s hs hsid
        · subst hs
          simp only at hsid
          have : (g_source_remove timer ctx).nextId = ctx.nextId := rfl
          omega

/-- A concrete main context with one armed periodic timer whose original
firing time is in the past relative to the reconfiguration moment. -/
def ctx_armed : GMainCtx :=
  { now := 1000, nextId := 5,
    sources := [{ id := 3, secs := 7200, nextFire := 500,
                  cb := TimerCb.periodicCheck }] }

theorem apply_configuration_reschedules_witness :
    periodic_sources (updater_apply_configuration 2 3 ctx_armed).2 =
      [{ id := 5, secs := 7200, nextFire := 8200,
         cb := TimerCb.periodicCheck }] :=
  ((apply_configuration_reschedules 2 3 ctx_armed (by decide)
      (by decide)).2.1 (by decide)).2

theorem first_net_poll_sound (netAt : Nat → Bool) :
    ∀ (fuel start k : Nat), first_net_poll netAt fuel start = some k →
      start ≤ k ∧ netAt k = true ∧
        ∀ j, start ≤ j → j < k → netAt j = false := by
  intro fuel
  induction fuel with
  | zero =>
    intro start k h
    simp [first_net_poll] at h
  | succ n ih =>
    intro start k h
    unfold first_net_poll at h
    by_cases hn : netAt start = true
    · rw [if_pos hn] at h
      injection h with h
      subst h
      exact ⟨Nat.le_refl _, hn, fun j hj1 hj2 => absurd hj2 (by omega)⟩
    · rw [if_neg hn] at h
      obtain ⟨h1, h2, h3⟩ := ih (start + 1) k h
      refine ⟨by omega, h2, fun j hj1 hj2 => ?_⟩
      by_cases hj : j = start
      · subst hj
        exact Bool.not_eq_true _ ▸ (by revert hn; cases netAt j <;> simp)
      · exact h3 j (by omega) hj2

/-- C9 counterexample: at startup with the first-boot wizard process
(piwiz) running, init_check returns without attempting any check or poll,
even though the network probe succeeds at every instant; so no immediate
check is attempted, contradicting the claim as stated. -/
theorem init_check_wizard_skips :
    init_check_model true (fun _ => true) 5 = InitOutcome.skippedWizard ∧
    InitOutcome.skippedWizard ≠ InitOutcome.checkedAt 0 := by
  exact ⟨rfl, by decide⟩

/-- C9 amended: at startup with the wizard not running, if the network
probe succeeds at once the check runs at poll 0; otherwise net_check polls
every NET_POLL_SECONDS seconds and the check runs exactly at the first
poll index at which the probe succeeds, no earlier poll having succeeded. -/
theorem init_check_startup :
    ∀ (netAt : Nat → Bool) (fuel : Nat),
      (netAt 0 = true →
        init_check_model false netAt fuel = InitOutcome.checkedAt 0) ∧
      (netAt 0 = false →
        ∀ k, init_check_model false netAt fuel = InitOutcome.checkedAt k →
          1 ≤ k ∧ netAt k = true ∧
            ∀ j, 1 ≤ j → j < k → netAt j = false) ∧
      NET_POLL_SECONDS = 60 := by
  intro netAt fuel
  refine ⟨fun h => ?_, fun h k hk => ?_, rfl⟩
  · unfold init_check_model
    rw [if_neg (by simp), if_pos h]
  · unfold init_check_model at hk
    rw [if_neg (by simp), if_neg (by simp [h])] at hk
    cases hfp : first_net_poll netAt fuel 1 with
    | some m =>
      rw [hfp] at hk
      injection hk with hk
      subst hk
      exact first_net_poll_sound netAt fuel 1 m hfp
    | none =>
      rw [hfp] at hk
      exact absurd hk (by simp)

theorem init_check_startup_witness :
    init_check_model false (fun _ => true) 4 = InitOutcome.checkedAt 0 :=
  (init_check_startup (fun _ => true) 4).1 rfl

end LxplugUpdater
